import Mathlib

/-!
Shallow embedding of the NanoHUB adaptation layer: the NanoCMD adapter
(`cmdservice`), the KMFDDM adapter (`ddmadapter`), the hub configuration
(`nanohub`), and the command enqueuer (`enqueue`).  External collaborators
(the workflow engine, the tally store, the declaration/status storage, the
plist/JSON parsers of the dependency libraries) are modelled as oracle
function fields on the embedded structures; every embedded entry point
additionally returns the list of collaborator calls it performed, so that
"exactly one event", "no retrieval occurs" and similar properties are
statable.
-/

namespace cmdservice

/-- Raw protocol bytes. -/
def Bytes := List Nat

instance : DecidableEq Bytes := by unfold Bytes; infer_instance

/-- Request-scoped parameters (`r.Params`), threaded through unchanged. -/
def Params := List (String × String)

instance : DecidableEq Params := by unfold Params; infer_instance

/-- Parsed NanoCMD TokenUpdate check-in message (`cmdmdm.TokenUpdate`);
its payload is opaque to this layer. -/
structure TokenUpdateMsg where
  data : Bytes
deriving DecidableEq

/-- Result of `checkInFromRaw`: either the NanoCMD TokenUpdate message or
some other successfully parsed check-in message kind. -/
inductive CheckinMsg
  | tokenUpdate (tu : TokenUpdateMsg)
  | other (tag : String)
deriving DecidableEq

/-- Message value handed to the engine check-in event: either the parsed
message unchanged, or the `cmdmdm.TokenUpdateEnrolling` wrapper around a
TokenUpdate with its `Enrolling` flag. -/
inductive EngineMsg
  | plain (m : CheckinMsg)
  | enrolling (tu : TokenUpdateMsg) (flag : Bool)
deriving DecidableEq

/-- Error value returned by an engine event call.  The designated sentinel
`engine.ErrWorkflowAlreadyStarted` is distinguished because
`CommandAndReportResults` tests for it with `errors.Is`. -/
inductive EngineErr
  | workflowAlreadyStarted
  | other (s : String)
deriving DecidableEq

/-- errors.Is(err, engine.ErrWorkflowAlreadyStarted) on a non-nil error. -/
def errorsIsAlreadyStarted : EngineErr → Bool
  | .workflowAlreadyStarted => true
  | .other _ => false

/-- Errors returned by the adapter entry points, one constructor per
`fmt.Errorf`/`errors.New` site in the source. -/
inductive CmdErr
  | parseMsg (e : String)
  | tallyRetrieve (e : String)
  | invalidWrapper
  | checkinEvent (e : EngineErr)
  | idleEvent (e : EngineErr)
  | commandResponseEvent (e : EngineErr)
deriving DecidableEq

/-- Record of one call made to the engine collaborator
(`MDMCheckinEvent` / `MDMIdleEvent` / `MDMCommandResponseEvent`),
with the arguments the source passes. -/
inductive EngineCall
  | checkinEvent (id : String) (msg : EngineMsg) (params : Params)
  | idleEvent (id : String) (raw : Bytes) (params : Params) (now : Nat)
  | commandResponseEvent (id : String) (uuid : String) (raw : Bytes) (params : Params)
deriving DecidableEq

/-- NanoMDM request as seen by the adapter: enrollment ID and the
request-scoped parameters forwarded inside `workflow.MDMContext`. -/
structure CmdRequest where
  id : String
  params : Params

/-- NanoMDM TokenUpdate (and general check-in) input: the message type tag
and the raw message bytes. -/
structure CheckinInput where
  messageType : String
  raw : Bytes

/-- NanoMDM `mdm.CommandResults` fields the adapter reads. -/
structure CommandResults where
  commandUUID : String
  status : String
  raw : Bytes

/-- CMDService with its collaborators modelled as oracles:
`store` is the optional TokenUpdate tally store (`nil` store = `none`);
`parseCheckin` is the behaviour of `checkInFromRaw` (NanoCMD message
construction plus plist unmarshal, both in dependency libraries);
`tueValid` is `cmdmdm.TokenUpdateEnrolling.Valid` on the wrapped message;
`engineCheckin`/`engineIdle`/`engineCmdResp` are the error results of the
single engine event call each entry point makes (`none` = success). -/
structure CMDService where
  store : Option (String → Except String Int)
  parseCheckin : String → Bytes → Except String CheckinMsg
  tueValid : TokenUpdateMsg → Bool
  engineCheckin : Option EngineErr
  engineIdle : Option EngineErr
  engineCmdResp : Option EngineErr
  maskStartedWorkflow : Bool

/-- CMDService.TokenUpdate: parse the raw check-in bytes; when a tally
store is configured and the message is a NanoCMD TokenUpdate, retrieve the
tally for the enrollment ID; a tally of exactly 1 wraps the message in the
`TokenUpdateEnrolling{Enrolling: true}` wrapper (failing when the wrapper
is not `Valid`); finally forward the message as an engine check-in event.
Returns the (optional) error together with the engine calls performed. -/
def CMDService.TokenUpdate (s : CMDService) (r : CmdRequest) (m : CheckinInput) :
    Option CmdErr × List EngineCall :=
  match s.parseCheckin m.messageType m.raw with
  | .error e => (some (.parseMsg e), [])
  | .ok msg =>
    let step : Except CmdErr EngineMsg :=
      match msg, s.store with
      | .tokenUpdate tu, some retrieve =>
        match retrieve r.id with
        | .error e => .error (.tallyRetrieve e)
        | .ok tally =>
          if tally = 1 then
            -- first token update means initial enrollment:
            -- wrap the token update to include the enrollment flag
            if s.tueValid tu then .ok (.enrolling tu true)
            else .error .invalidWrapper
          else .ok (.plain (.tokenUpdate tu))
      | m', _ => .ok (.plain m')
    match step with
    | .error e => (some e, [])
    | .ok emsg =>
      match s.engineCheckin with
      | some e => (some (.checkinEvent e), [.checkinEvent r.id emsg r.params])
      | none => (none, [.checkinEvent r.id emsg r.params])

/-- Result of `CommandAndReportResults`: the returned follow-up command
(the source always returns `nil`), the returned error, the engine calls
performed, and the engine errors logged (rather than returned). -/
structure CmdReportOut where
  cmd : Option Unit
  err : Option CmdErr
  calls : List EngineCall
  logged : List EngineErr
deriving DecidableEq

/-- CMDService.CommandAndReportResults: a report with Status "Idle" emits
one engine idle event (with the current time `now`); a "workflow already
started" error from that call is logged instead of returned when masking
is enabled.  Any other status emits one engine command-response event
whose error is always propagated.  No follow-up command is ever
returned. -/
def CMDService.CommandAndReportResults (s : CMDService) (r : CmdRequest)
    (results : CommandResults) (now : Nat) : CmdReportOut :=
  if results.status = "Idle" then
    let call := EngineCall.idleEvent r.id results.raw r.params now
    match s.engineIdle with
    | some e =>
      if errorsIsAlreadyStarted e && s.maskStartedWorkflow then
        -- masked: log it and continue on
        { cmd := none, err := none, calls := [call], logged := [e] }
      else
        { cmd := none, err := some (.idleEvent e), calls := [call], logged := [] }
    | none => { cmd := none, err := none, calls := [call], logged := [] }
  else
    let call := EngineCall.commandResponseEvent r.id results.commandUUID results.raw r.params
    match s.engineCmdResp with
    | some e => { cmd := none, err := some (.commandResponseEvent e), calls := [call], logged := [] }
    | none => { cmd := none, err := none, calls := [call], logged := [] }

end cmdservice

namespace ddmadapter

/-- Raw bytes of a DM message body or storage blob. -/
def Bytes := List Nat

instance : DecidableEq Bytes := by unfold Bytes; infer_instance

/-- strings.HasPrefix: the Go byte-wise check, on (ASCII) characters. -/
def hasPre (s p : String) : Bool := p.toList.isPrefixOf s.toList

/-- Go slice `s[n:]` on an (ASCII) string, as dropping n characters. -/
def strDrop (s : String) (n : Nat) : String := (s.toList.drop n).asString

/-- JSON path mux (`jsonpath.PathMux` of the kmfddm dependency), modelled
by the set of registered handler paths; the handlers' parsing behaviour
itself lives in the `parseStatusUsingMux` oracle. -/
structure PathMux where
  paths : List String
deriving DecidableEq

/-- ddm.StatusReport: ID stamped post-hoc, raw body bytes, and the parsed
Values/Errors/Declarations (their kmfddm element types kept opaque as
strings). -/
structure StatusReport where
  ID : String := ""
  Raw : Bytes := []
  Values : List String := []
  Errors : List String := []
  Declarations : List String := []
deriving DecidableEq

/-- Request context as the adapter uses it: the two context keys
(`ctxMux`, `ctxStatusReport`) that may carry a caller-installed path mux
or in-progress status report; `none` models both an absent key and a
stored nil pointer. -/
structure DMCtx where
  mux : Option PathMux := none
  statusReport : Option StatusReport := none
deriving DecidableEq

/-- ContextStatusReport: retrieve the status report from the context; if
none is present (or it is nil) create a new one from raw and store it in
the returned context, otherwise return the context unchanged with the
report it already carries. -/
def ContextStatusReport (ctx : DMCtx) (raw : Bytes) : DMCtx × StatusReport :=
  match ctx.statusReport with
  | some status => (ctx, status)
  | none =>
    let status : StatusReport := { Raw := raw }
    ({ ctx with statusReport := some status }, status)

/-- ContextJSONMux: retrieve the path mux from the context; if none is
present (or it is nil) create a new empty one and store it in the
returned context, otherwise return the context unchanged with the mux it
already carries. -/
def ContextJSONMux (ctx : DMCtx) : DMCtx × PathMux :=
  match ctx.mux with
  | some mux => (ctx, mux)
  | none =>
    let mux : PathMux := { paths := [] }
    ({ ctx with mux := some mux }, mux)

/-- NanoMDM request as the DM adapter sees it: enrollment ID plus the
request context. -/
structure DMRequest where
  id : String
  ctx : DMCtx := {}

/-- mdm.DeclarativeManagement message fields the adapter reads: the
Endpoint tag and the raw Data body. -/
structure DMMessage where
  Endpoint : String
  Data : Bytes := []

/-- Errors of the DM adapter, one constructor per error site of the
source (`nil request`, `nil message`, wrapped parse/storage failures, the
path-parse failure of `handleDeclaration`, and `ErrUnknownDMEndpoint`
carrying the offending endpoint value). -/
inductive DMErr
  | nilRequest
  | nilMessage
  | parsingStatus (e : String)
  | storingStatus (e : String)
  | retrievingTokens (e : String)
  | retrievingDeclarationItems (e : String)
  | pathParse (path : String) (e : String)
  | retrievingDeclaration (declarationID : String) (e : String)
  | unknownEndpoint (endpoint : String)
deriving DecidableEq

/-- Record of one call made to a storage/parse collaborator. -/
inductive DMCall
  | parseStatusCall (raw : Bytes) (mux : PathMux)
  | storeStatusCall (enrollmentID : String) (report : StatusReport)
  | retrieveTokensCall (enrollmentID : String)
  | retrieveItemsCall (enrollmentID : String)
  | retrieveDeclarationCall (declarationID declarationType enrollmentID : String)
deriving DecidableEq

/-- DMAdapter with its collaborators as oracles:
`registerStatusHandlers` is `ddm.RegisterStatusHandlers` (registers the
default handlers on the mux); `parseStatusUsingMux` is
`ddm.ParseStatusUsingMux`, returning the unhandled root paths and the
status report as mutated by the registered handlers; `statusIDFn` and
`statusStore` are the optional ID generator and status store (their Go
(value, error) returns kept as pairs); the three retrieve functions are
the enrollment declaration storage, each returning Go's ([]byte, error)
pair. -/
structure DMAdapter where
  registerStatusHandlers : PathMux → PathMux
  parseStatusUsingMux : Bytes → PathMux → StatusReport → Except String (List String × StatusReport)
  statusIDFn : Option (DMRequest → StatusReport → String × Option String)
  statusStore : Option (String → StatusReport → Option String)
  retrieveTokensJSON : String → Option Bytes × Option String
  retrieveDeclarationItemsJSON : String → Option Bytes × Option String
  retrieveEnrollmentDeclarationJSON : String → String → String → Option Bytes × Option String

/-- Result of a DM adapter call: the returned bytes and error (Go returns
both), the collaborator calls performed, and the log lines emitted. -/
structure DMResult where
  bytes : Option Bytes
  err : Option DMErr
  calls : List DMCall
  logs : List String
deriving DecidableEq

/-- Status report after the optional ID-generation function has stamped
its ID (the source assigns `status.ID` from the function's first return
value whether or not the function also returned an error). -/
def statusWithID (dma : DMAdapter) (r : DMRequest) (parsed : StatusReport) : StatusReport :=
  match dma.statusIDFn with
  | none => parsed
  | some f => { parsed with ID := (f r parsed).1 }

/-- Log lines of the ID-generation step: a failure to generate an ID is
logged (and does not abort). -/
def idLogs (dma : DMAdapter) (r : DMRequest) (parsed : StatusReport) : List String :=
  match dma.statusIDFn with
  | none => []
  | some f =>
    match (f r parsed).2 with
    | some e => ["generate status id: " ++ e]
    | none => []

/-- DMAdapter.handleStatus: fetch (or create) the mux and status report
from the request context, register the default handlers, parse the
report's raw bytes through the mux (logging unhandled paths), stamp the
ID when an ID function is configured (logging but not aborting on its
failure), then: with no status store return success without storing;
otherwise store the report, wrapping a storage failure as a
"storing status" error. -/
def handleStatus (dma : DMAdapter) (r : DMRequest) (msgData : Bytes) :
    Option DMErr × List DMCall × List String :=
  let p1 := ContextJSONMux r.ctx
  let p2 := ContextStatusReport p1.1 msgData
  let mux := dma.registerStatusHandlers p1.2
  let status := p2.2
  match dma.parseStatusUsingMux status.Raw mux status with
  | .error e => (some (.parsingStatus e), [.parseStatusCall status.Raw mux], [])
  | .ok (unhandled, parsed) =>
    let logs := unhandled.map (fun p => "unhandled status path: " ++ p) ++ idLogs dma r parsed
    let status2 := statusWithID dma r parsed
    match dma.statusStore with
    | none =>
      -- skip storing the report entirely; custom parsers already ran
      (none, [.parseStatusCall status.Raw mux], logs)
    | some store =>
      match store r.id status2 with
      | some e => (some (.storingStatus e),
          [.parseStatusCall status.Raw mux, .storeStatusCall r.id status2],
          logs ++ ["storing status: " ++ e])
      | none => (none,
          [.parseStatusCall status.Raw mux, .storeStatusCall r.id status2],
          logs ++ ["stored status"])

/-- DMAdapter.handleTokens: retrieve the enrollment's token JSON,
wrapping a storage failure. -/
def handleTokens (dma : DMAdapter) (r : DMRequest) : DMResult :=
  let g := dma.retrieveTokensJSON r.id
  match g.2 with
  | some e => ⟨g.1, some (.retrievingTokens e), [.retrieveTokensCall r.id], []⟩
  | none => ⟨g.1, none, [.retrieveTokensCall r.id], ["retrieved tokens"]⟩

/-- DMAdapter.handleDeclarationItems: retrieve the enrollment's
declaration-items JSON, wrapping a storage failure. -/
def handleDeclarationItems (dma : DMAdapter) (r : DMRequest) : DMResult :=
  let g := dma.retrieveDeclarationItemsJSON r.id
  match g.2 with
  | some e => ⟨g.1, some (.retrievingDeclarationItems e), [.retrieveItemsCall r.id], []⟩
  | none => ⟨g.1, none, [.retrieveItemsCall r.id], ["retrieved declaration items"]⟩

/-- Split a character list at the first occurrence of c, or none. -/
def splitOnce (c : Char) : List Char → Option (List Char × List Char)
  | [] => none
  | x :: xs =>
    if x = c then some ([], xs)
    else
      match splitOnce c xs with
      | some (a, b) => some (x :: a, b)
      | none => none

/-- Modelled from the spec: `ddm.ParseDeclarationPath` lives in the
kmfddm dependency, not in this repository's sources.  Per the spec it
"parses type and id from the suffix after the fixed prefix; fails with a
PathParseError on malformed suffixes", with `"profile/abc123"` parsing to
type `"profile"` and id `"abc123"`: the suffix is split at its first
slash into a non-empty type and a non-empty id. -/
def ParseDeclarationPath (path : String) : Except String (String × String) :=
  match splitOnce '/' path.toList with
  | none => .error "invalid declaration path"
  | some (t, i) =>
    if t = [] ∨ i = [] then .error "invalid declaration path"
    else .ok (t.asString, i.asString)

/-- DMAdapter.handleDeclaration: parse the declaration type and id from
the path suffix (failing, with no retrieval, on a malformed suffix), then
retrieve the declaration JSON for that enrollment, type and id, wrapping
a storage failure. -/
def handleDeclaration (dma : DMAdapter) (r : DMRequest) (path : String) : DMResult :=
  match ParseDeclarationPath path with
  | .error e => ⟨none, some (.pathParse path e), [], []⟩
  | .ok ti =>
    let g := dma.retrieveEnrollmentDeclarationJSON ti.2 ti.1 r.id
    match g.2 with
    | some e => ⟨g.1, some (.retrievingDeclaration ti.2 e),
        [.retrieveDeclarationCall ti.2 ti.1 r.id], ["retrieving declaration: " ++ e]⟩
    | none => ⟨g.1, none,
        [.retrieveDeclarationCall ti.2 ti.1 r.id], ["retrieved declaration"]⟩

/-- DMAdapter.DeclarativeManagement: the single DM entry point.  Fails on
an absent request or message; dispatches on the message's Endpoint tag to
the status, tokens, declaration-items, or (after stripping the fixed
"declaration/" prefix) single-declaration handler; any other endpoint
fails with the unknown-endpoint error carrying the offending value. -/
def DeclarativeManagement (dma : DMAdapter) (r : Option DMRequest) (msg : Option DMMessage) :
    DMResult :=
  match r with
  | none => ⟨none, some .nilRequest, [], []⟩
  | some r =>
    match msg with
    | none => ⟨none, some .nilMessage, [], []⟩
    | some msg =>
      if msg.Endpoint = "status" then
        let h := handleStatus dma r msg.Data
        ⟨none, h.1, h.2.1, h.2.2⟩
      else if msg.Endpoint = "tokens" then
        handleTokens dma r
      else if msg.Endpoint = "declaration-items" then
        handleDeclarationItems dma r
      else if hasPre msg.Endpoint "declaration/" then
        handleDeclaration dma r (strDrop msg.Endpoint ("declaration/".length))
      else
        ⟨none, some (.unknownEndpoint msg.Endpoint), [], []⟩

end ddmadapter

namespace nanohub

/-- authConfig: configuration for the MDM authentication middleware. -/
structure AuthConfig where
  mdmSignature : Bool := false
  signatureHeader : String := ""
  signatureLogErrors : Bool := false
deriving DecidableEq

/-- config: the internal configuration options that participate in
validation and handler selection.  The collaborator handles of the Go
struct (services, stores, pusher, webhook URLs, per-component option
slices) are opaque to `validate` and are not modelled. -/
structure Config where
  logger : Option Unit := some ()
  authConfig : AuthConfig := {}
  migration : Bool := false
  checkin : Bool := false
  noCombined : Bool := false
  verifier : Option Unit := none
  rootsPEM : List Nat := []
  intsPEM : List Nat := []
deriving DecidableEq

/-- newConfig: a new, safe config (non-nil NopLogger, everything else
off). -/
def newConfig : Config := {}

/-- config.validate: the construction-time consistency checks, in source
order; returns the error message of the first failing check. -/
def Config.validate (c : Config) : Option String :=
  if c.logger.isNone then
    some "nil logger"
  else if c.noCombined && !c.checkin then
    some "config precludes checkin support"
  else if c.verifier.isSome && (c.rootsPEM.length != 0 || c.intsPEM.length != 0) then
    some "roots and intermediates present with explicit verifier"
  else if c.authConfig.signatureHeader != "" && c.authConfig.mdmSignature then
    some "signature header and Mdm-Signature are mutually exclusive"
  else
    none

/-- Option: a functional option on the config, possibly failing. -/
def ConfigOption := Config → Except String Config

/-- WithLogger sets the root logger (a nil logger is representable and
caught by validate). -/
def WithLogger (logger : Option Unit) : ConfigOption :=
  fun c => .ok { c with logger := logger }

/-- WithCheckinHandler enables the separate check-in HTTP handler. -/
def WithCheckinHandler : ConfigOption :=
  fun c => .ok { c with checkin := true }

/-- WithoutServerCombinedHandler disables the combined check-in and
command report handler. -/
def WithoutServerCombinedHandler : ConfigOption :=
  fun c => .ok { c with noCombined := true }

/-- WithVerifier overrides the default pool verifier (the verifier value
itself is opaque). -/
def WithVerifier (verifier : Unit) : ConfigOption :=
  fun c => .ok { c with verifier := some verifier }

/-- WithRootPEMs sets the root CA PEM bytes. -/
def WithRootPEMs (pem : List Nat) : ConfigOption :=
  fun c => .ok { c with rootsPEM := pem }

/-- WithIntermediatePEMs sets the intermediate CA PEM bytes. -/
def WithIntermediatePEMs (pem : List Nat) : ConfigOption :=
  fun c => .ok { c with intsPEM := pem }

/-- WithMdmSignature enables Mdm-Signature header certificate
extraction. -/
def WithMdmSignature : ConfigOption :=
  fun c => .ok { c with authConfig := { c.authConfig with mdmSignature := true } }

/-- WithCertHeader configures signature-header extraction (and disables
Mdm-Signature extraction); the source panics on an empty header name at
option-construction time, so header is assumed non-empty. -/
def WithCertHeader (header : String) : ConfigOption :=
  fun c => .ok { c with authConfig :=
    { c.authConfig with mdmSignature := false, signatureHeader := header } }

/-- config.runOptions: run the options left to right, stopping at the
first failure. -/
def runOptions : Config → List ConfigOption → Except String Config
  | c, [] => .ok c
  | c, o :: os =>
    match o c with
    | .error e => .error e
    | .ok c' => runOptions c' os

/-- NanoHUB as far as configuration is concerned: a successfully
validated config. -/
structure NanoHUB where
  cfg : Config

/-- New, modelled up to configuration validation: run the options on a
fresh config, then validate, failing on the first error.  The
collaborator construction performed after validation in the source is
outside this model; request handling never re-runs these checks. -/
def New (opts : List ConfigOption) : Except String NanoHUB :=
  match runOptions newConfig opts with
  | .error e => .error e
  | .ok c =>
    match c.validate with
    | some e => .error e
    | none => .ok ⟨c⟩

end nanohub

namespace enqueue

/-- Raw MDM command bytes. -/
def Bytes := List Nat

instance : DecidableEq Bytes := by unfold Bytes; infer_instance

/-- api.APIResult as consumed here: only its aggregate error accessor
`Error()` is read. -/
structure APIResult where
  aggregateErr : Option String
deriving DecidableEq

/-- Record of one call to the raw enqueue collaborator
(`RawCommandEnqueueWithPush`). -/
inductive EnqCall
  | rawCommandEnqueueWithPush (rawCommand : Option Bytes) (ids : List String) (noPush : Bool)
deriving DecidableEq

/-- Errors of the enqueuer: the wrapped command-build failure, the
wrapped collaborator call failure, and the result's own aggregate
error. -/
inductive EnqErr
  | makingCommand (e : String)
  | rawPushEnqueue (e : String)
  | resultError (e : String)
deriving DecidableEq

/-- Enqueue with its collaborators as oracles:
`rawCommandEnqueueWithPush` returns Go's (result, count, error) triple;
`makeCommand` is `notifier.MakeCommand` of the kmfddm dependency;
`iderID` is the identifier the UUID generator produces for this call;
`noPush` globally suppresses pushes. -/
structure Enqueue where
  rawCommandEnqueueWithPush : Option Bytes → List String → Bool → APIResult × Int × Option String
  makeCommand : String → Option Bytes → Except String Bytes
  iderID : String
  noPush : Bool

/-- Enqueue.Enqueue (named `enqueue` here as Lean reserves the composed
name): submit rawCmd to the ids via the collaborator; return its wrapped
error if the call failed, otherwise the result's aggregate error (success
only when both are absent). -/
def Enqueue.enqueue (e : Enqueue) (ids : List String) (rawCmd : Option Bytes) :
    Option EnqErr × List EnqCall :=
  let g := e.rawCommandEnqueueWithPush rawCmd ids e.noPush
  let call := EnqCall.rawCommandEnqueueWithPush rawCmd ids e.noPush
  match g.2.2 with
  | some msg => (some (.rawPushEnqueue msg), [call])
  | none =>
    match g.1.aggregateErr with
    | some msg => (some (.resultError msg), [call])
    | none => (none, [call])

/-- Enqueue.EnqueueDMCommand: build the declarative-management command
with the freshly generated identifier (wrapping a build failure, with no
collaborator call), then delegate to Enqueue. -/
def Enqueue.EnqueueDMCommand (e : Enqueue) (ids : List String) (tokensJSON : Option Bytes) :
    Option EnqErr × List EnqCall :=
  match e.makeCommand e.iderID tokensJSON with
  | .error msg => (some (.makingCommand msg), [])
  | .ok cmdBytes => e.enqueue ids (some cmdBytes)

/-- Enqueue.Push: a no-op success when pushes are globally suppressed,
otherwise an enqueue of a nil command to the same ids. -/
def Enqueue.Push (e : Enqueue) (ids : List String) : Option EnqErr × List EnqCall :=
  if e.noPush then (none, [])
  else e.enqueue ids none

/-- Enqueue.SupportsMultiCommands: the multi-ID batched enqueue
capability flag. -/
def Enqueue.SupportsMultiCommands (_ : Enqueue) : Bool := true

end enqueue

namespace cmdservice

/-- Example tally store whose tally is 1 for every enrollment. -/
def exTally1 : String → Except String Int := fun _ => .ok 1

/-- Example tally store whose tally is 2 for every enrollment. -/
def exTally2 : String → Except String Int := fun _ => .ok 2

/-- Example tally store that always fails. -/
def exTallyFail : String → Except String Int := fun _ => .error "tally unavailable"

/-- Example parse behaviour producing a NanoCMD TokenUpdate message. -/
def exParseTU : String → Bytes → Except String CheckinMsg :=
  fun _ _ => .ok (.tokenUpdate ⟨[]⟩)

/-- Example service: tally store reporting 1, valid wrapper, engine calls
succeed except that idle and command-response events hit the
already-started sentinel; masking enabled. -/
def exSvc1 : CMDService :=
  { store := some exTally1
    parseCheckin := exParseTU
    tueValid := fun _ => true
    engineCheckin := none
    engineIdle := some .workflowAlreadyStarted
    engineCmdResp := some .workflowAlreadyStarted
    maskStartedWorkflow := true }

/-- Example service: like exSvc1 but with a tally of 2 and masking
disabled. -/
def exSvc2 : CMDService :=
  { exSvc1 with store := some exTally2, maskStartedWorkflow := false }

/-- Example service whose tally store fails. -/
def exSvcFail : CMDService :=
  { exSvc1 with store := some exTallyFail }

/-- Example request. -/
def exReq : CmdRequest := { id := "E1", params := [] }

/-- Example raw TokenUpdate input. -/
def exInput : CheckinInput := { messageType := "TokenUpdate", raw := [] }

/-- Example Idle command report. -/
def exResultsIdle : CommandResults := { commandUUID := "U1", status := "Idle", raw := [] }

/-- Example non-Idle command report. -/
def exResultsAck : CommandResults := { commandUUID := "U1", status := "Acknowledged", raw := [] }

end cmdservice

namespace ddmadapter

/-- Example adapter: registration adds the default handler path, parsing
succeeds with one unhandled path and one scraped value, ID generation
fails, every storage operation succeeds. -/
def exAdapter : DMAdapter :=
  { registerStatusHandlers := fun m => ⟨".StatusItems" :: m.paths⟩
    parseStatusUsingMux := fun _ _ st => .ok ([".test"], { st with Values := ["testUUID"] })
    statusIDFn := some (fun _ _ => ("testStatusID", some "id generator failed"))
    statusStore := some (fun _ _ => none)
    retrieveTokensJSON := fun _ => (some [1], none)
    retrieveDeclarationItemsJSON := fun _ => (some [2], none)
    retrieveEnrollmentDeclarationJSON := fun _ _ _ => (some [3], none) }

/-- Example adapter whose declaration retrieval and status store fail. -/
def exAdapterFail : DMAdapter :=
  { exAdapter with
    statusStore := some (fun _ _ => some "disk full")
    retrieveEnrollmentDeclarationJSON := fun _ _ _ => (none, some "not found") }

/-- Example adapter without a status store. -/
def exAdapterNoStore : DMAdapter := { exAdapter with statusStore := none }

/-- Example request with an empty context. -/
def exDMReq : DMRequest := { id := "E1" }

/-- Example caller-installed mux and report carried by a context. -/
def exMux : PathMux := ⟨[".test"]⟩

/-- Example caller-installed status report. -/
def exReport : StatusReport := { Raw := [7] }

/-- Example request whose context carries exMux and exReport. -/
def exDMReqCtx : DMRequest := { id := "E1", ctx := { mux := some exMux, statusReport := some exReport } }

/-- Example DM message with an unknown endpoint. -/
def exMsgBogus : DMMessage := { Endpoint := "bogus" }

/-- Example DM message addressing a single declaration. -/
def exMsgDecl : DMMessage := { Endpoint := "declaration/profile/abc123" }

/-- Example DM status message. -/
def exMsgStatus : DMMessage := { Endpoint := "status", Data := [7] }

end ddmadapter

namespace enqueue

/-- Example enqueuer: the collaborator succeeds with no aggregate error;
command building succeeds; pushes enabled. -/
def exEnq : Enqueue :=
  { rawCommandEnqueueWithPush := fun _ _ _ => (⟨none⟩, 1, none)
    makeCommand := fun _ _ => .ok [9]
    iderID := "UUID-1"
    noPush := false }

/-- Example enqueuer with pushes globally suppressed. -/
def exEnqNoPush : Enqueue := { exEnq with noPush := true }

end enqueue

namespace cmdservice

/-- C1: for every TokenUpdate check-in where a tally store is configured
and the raw bytes parse to a NanoCMD TokenUpdate message, a retrieved
tally of exactly 1 forwards the parsed message wrapped with
Enrolling = true to the engine check-in event (failing with the
validation error when the wrapper is not valid), and any other tally
forwards the unwrapped parsed message unmodified. -/
theorem claim_C1 (s : CMDService) (r : CmdRequest) (m : CheckinInput)
    (retrieve : String → Except String Int) (tu : TokenUpdateMsg)
    (hstore : s.store = some retrieve)
    (hparse : s.parseCheckin m.messageType m.raw = .ok (.tokenUpdate tu)) :
    (retrieve r.id = .ok 1 →
      (s.tueValid tu = true →
        (s.TokenUpdate r m).2 = [.checkinEvent r.id (.enrolling tu true) r.params]) ∧
      (s.tueValid tu = false →
        s.TokenUpdate r m = (some .invalidWrapper, []))) ∧
    (∀ t : Int, retrieve r.id = .ok t → t ≠ 1 →
      (s.TokenUpdate r m).2 = [.checkinEvent r.id (.plain (.tokenUpdate tu)) r.params]) := by
  refine ⟨fun h1 => ⟨fun hv => ?_, fun hv => ?_⟩, fun t ht hne => ?_⟩
  · simp [CMDService.TokenUpdate, hparse, hstore, h1, hv]
    cases s.engineCheckin <;> simp
  · simp [CMDService.TokenUpdate, hparse, hstore, h1, hv]
  · simp [CMDService.TokenUpdate, hparse, hstore, ht, hne]
    cases s.engineCheckin <;> simp

/-- C1 witness: with a tally of 1 and a valid wrapper, the single engine
check-in event carries the Enrolling wrapper. -/
theorem claim_C1_witness :
    (exSvc1.TokenUpdate exReq exInput).2
      = [.checkinEvent "E1" (.enrolling ⟨[]⟩ true) []] :=
  ((claim_C1 exSvc1 exReq exInput exTally1 ⟨[]⟩ rfl rfl).1 rfl).1 rfl

/-- C9: when the tally store retrieval fails, the TokenUpdate entry point
returns the wrapped retrieval error and makes no engine call. -/
theorem claim_C9 (s : CMDService) (r : CmdRequest) (m : CheckinInput)
    (retrieve : String → Except String Int) (tu : TokenUpdateMsg) (e : String)
    (hstore : s.store = some retrieve)
    (hparse : s.parseCheckin m.messageType m.raw = .ok (.tokenUpdate tu))
    (herr : retrieve r.id = .error e) :
    s.TokenUpdate r m = (some (.tallyRetrieve e), []) := by
  simp [CMDService.TokenUpdate, hparse, hstore, herr]

/-- C9 witness: a failing tally store yields the wrapped error and an
empty engine call list. -/
theorem claim_C9_witness :
    exSvcFail.TokenUpdate exReq exInput = (some (.tallyRetrieve "tally unavailable"), []) :=
  claim_C9 exSvcFail exReq exInput exTallyFail ⟨[]⟩ "tally unavailable" rfl rfl rfl

/-- C2: every command-report call returns no follow-up command, an Idle
status makes exactly the one idle-event engine call (with enrollment ID,
raw bytes, request context and current time), and any other status makes
exactly the one command-response engine call (with enrollment ID, command
UUID, raw bytes and request context). -/
theorem claim_C2 (s : CMDService) (r : CmdRequest) (results : CommandResults) (now : Nat) :
    (s.CommandAndReportResults r results now).cmd = none ∧
    (results.status = "Idle" →
      (s.CommandAndReportResults r results now).calls
        = [.idleEvent r.id results.raw r.params now]) ∧
    (results.status ≠ "Idle" →
      (s.CommandAndReportResults r results now).calls
        = [.commandResponseEvent r.id results.commandUUID results.raw r.params]) := by
  unfold CMDService.CommandAndReportResults
  by_cases h : results.status = "Idle" <;> simp only [h] <;> simp <;>
    rcases h2 : s.engineIdle with _ | e <;> rcases h3 : s.engineCmdResp with _ | e' <;>
    simp [h2, h3] <;> split <;> simp

/-- C2 witness: an Idle report at a concrete service makes exactly the
one idle-event call. -/
theorem claim_C2_witness :
    (exSvc1.CommandAndReportResults exReq exResultsIdle 5).calls
      = [.idleEvent "E1" [] [] 5] :=
  (claim_C2 exSvc1 exReq exResultsIdle 5).2.1 rfl

/-- C3: with masking enabled, the already-started sentinel from the idle
event yields a nil error and is logged; with masking disabled it is
returned wrapped; and the sentinel from the command-response event of a
non-Idle status is always returned wrapped, whatever the masking flag. -/
theorem claim_C3 (s : CMDService) (r : CmdRequest) (results : CommandResults) (now : Nat) :
    (results.status = "Idle" → s.engineIdle = some .workflowAlreadyStarted →
      (s.maskStartedWorkflow = true →
        (s.CommandAndReportResults r results now).err = none ∧
        (s.CommandAndReportResults r results now).logged = [.workflowAlreadyStarted]) ∧
      (s.maskStartedWorkflow = false →
        (s.CommandAndReportResults r results now).err
          = some (.idleEvent .workflowAlreadyStarted))) ∧
    (results.status ≠ "Idle" → s.engineCmdResp = some .workflowAlreadyStarted →
      (s.CommandAndReportResults r results now).err
        = some (.commandResponseEvent .workflowAlreadyStarted)) := by
  refine ⟨fun hs hi => ⟨fun hm => ?_, fun hm => ?_⟩, fun hs hc => ?_⟩
  · simp [CMDService.CommandAndReportResults, hs, hi, hm, errorsIsAlreadyStarted]
  · simp [CMDService.CommandAndReportResults, hs, hi, hm, errorsIsAlreadyStarted]
  · simp [CMDService.CommandAndReportResults, hs, hc, errorsIsAlreadyStarted]

/-- C3 witness: at a concrete masked service, the sentinel from the idle
event is masked while the sentinel from the command-response event of a
non-Idle report is propagated. -/
theorem claim_C3_witness :
    (exSvc1.CommandAndReportResults exReq exResultsIdle 5).err = none ∧
    (exSvc1.CommandAndReportResults exReq exResultsAck 5).err
      = some (.commandResponseEvent .workflowAlreadyStarted) :=
  ⟨(((claim_C3 exSvc1 exReq exResultsIdle 5).1 rfl rfl).1 rfl).1,
   (claim_C3 exSvc1 exReq exResultsAck 5).2 (by decide) rfl⟩

end cmdservice

namespace ddmadapter

/-- Endpoints beginning with "declaration/" are distinct from the three
named endpoint tags. -/
theorem hasPre_declaration_ne (ep : String) (h : hasPre ep "declaration/" = true) :
    ep ≠ "status" ∧ ep ≠ "tokens" ∧ ep ≠ "declaration-items" := by
  refine ⟨?_, ?_, ?_⟩ <;> rintro rfl <;> revert h <;> decide

/-- C5: the DM entry point fails on an absent request or message, and any
endpoint other than "status", "tokens", "declaration-items" or one
beginning with "declaration/" fails with the unknown-endpoint error
carrying the offending value (with no collaborator call). -/
theorem claim_C5 (dma : DMAdapter) (r : DMRequest) (m : DMMessage)
    (h1 : m.Endpoint ≠ "status") (h2 : m.Endpoint ≠ "tokens")
    (h3 : m.Endpoint ≠ "declaration-items")
    (h4 : hasPre m.Endpoint "declaration/" = false) :
    (DeclarativeManagement dma none (some m)).err = some .nilRequest ∧
    (DeclarativeManagement dma (some r) none).err = some .nilMessage ∧
    DeclarativeManagement dma (some r) (some m)
      = ⟨none, some (.unknownEndpoint m.Endpoint), [], []⟩ := by
  refine ⟨rfl, rfl, ?_⟩
  simp [DeclarativeManagement, h1, h2, h3, h4]

/-- C5 witness: endpoint "bogus" yields the unknown-endpoint error
carrying "bogus". -/
theorem claim_C5_witness :
    DeclarativeManagement exAdapter (some exDMReq) (some exMsgBogus)
      = ⟨none, some (.unknownEndpoint "bogus"), [], []⟩ :=
  (claim_C5 exAdapter exDMReq exMsgBogus (by decide) (by decide) (by decide) (by decide)).2.2

/-- C6: every endpoint beginning with "declaration/" dispatches to the
single-declaration handler on the suffix after the fixed prefix;
"profile/abc123" parses to type "profile" and id "abc123"; a malformed
suffix fails with the path-parse error and performs no retrieval;
otherwise the declaration is retrieved for that id, type and enrollment,
with a storage failure propagated wrapped. -/
theorem claim_C6 (dma : DMAdapter) (r : DMRequest) (m : DMMessage)
    (h : hasPre m.Endpoint "declaration/" = true) :
    DeclarativeManagement dma (some r) (some m)
      = handleDeclaration dma r (strDrop m.Endpoint ("declaration/".length)) ∧
    ParseDeclarationPath "profile/abc123" = .ok ("profile", "abc123") ∧
    (∀ e, ParseDeclarationPath (strDrop m.Endpoint ("declaration/".length)) = .error e →
      DeclarativeManagement dma (some r) (some m)
        = ⟨none, some (.pathParse (strDrop m.Endpoint ("declaration/".length)) e), [], []⟩) ∧
    (∀ t i, ParseDeclarationPath (strDrop m.Endpoint ("declaration/".length)) = .ok (t, i) →
      (DeclarativeManagement dma (some r) (some m)).calls
        = [.retrieveDeclarationCall i t r.id] ∧
      (∀ e, (dma.retrieveEnrollmentDeclarationJSON i t r.id).2 = some e →
        (DeclarativeManagement dma (some r) (some m)).err
          = some (.retrievingDeclaration i e))) := by
  obtain ⟨n1, n2, n3⟩ := hasPre_declaration_ne m.Endpoint h
  have hd : DeclarativeManagement dma (some r) (some m)
      = handleDeclaration dma r (strDrop m.Endpoint ("declaration/".length)) := by
    simp [DeclarativeManagement, n1, n2, n3, h]
  refine ⟨hd, rfl, fun e he => ?_, fun t i hti => ⟨?_, fun e he => ?_⟩⟩
  · rw [hd]; simp [handleDeclaration, he]
  · rw [hd]
    simp only [handleDeclaration, hti]
    rcases h2 : (dma.retrieveEnrollmentDeclarationJSON i t r.id).2 with _ | e <;> simp [h2]
  · rw [hd]; simp [handleDeclaration, hti, he]

/-- C6 witness: endpoint "declaration/profile/abc123" retrieves the
declaration with id "abc123" and type "profile" for the enrollment, and a
storage failure is propagated wrapped. -/
theorem claim_C6_witness :
    (DeclarativeManagement exAdapterFail (some exDMReq) (some exMsgDecl)).calls
      = [.retrieveDeclarationCall "abc123" "profile" "E1"] ∧
    (DeclarativeManagement exAdapterFail (some exDMReq) (some exMsgDecl)).err
      = some (.retrievingDeclaration "abc123" "not found") :=
  have h := claim_C6 exAdapterFail exDMReq exMsgDecl (by decide)
  ⟨(h.2.2.2 "profile" "abc123" rfl).1,
   (h.2.2.2 "profile" "abc123" rfl).2 "not found" rfl⟩

/-- C7: for a status DM call whose body parses successfully, with no
status store the call succeeds having run the parse (so custom handlers
executed) and stores nothing; with a store configured, an ID-generation
failure is logged while the report is still stored; and a storage failure
is returned wrapped as a "storing status" error. -/
theorem claim_C7 (dma : DMAdapter) (r : DMRequest) (m : DMMessage)
    (unh : List String) (parsed : StatusReport)
    (hep : m.Endpoint = "status")
    (hparse : dma.parseStatusUsingMux
        (ContextStatusReport (ContextJSONMux r.ctx).1 m.Data).2.Raw
        (dma.registerStatusHandlers (ContextJSONMux r.ctx).2)
        (ContextStatusReport (ContextJSONMux r.ctx).1 m.Data).2
      = .ok (unh, parsed)) :
    DeclarativeManagement dma (some r) (some m)
      = ⟨none, (handleStatus dma r m.Data).1, (handleStatus dma r m.Data).2.1,
          (handleStatus dma r m.Data).2.2⟩ ∧
    (dma.statusStore = none →
      (handleStatus dma r m.Data).1 = none ∧
      (handleStatus dma r m.Data).2.1
        = [.parseStatusCall (ContextStatusReport (ContextJSONMux r.ctx).1 m.Data).2.Raw
            (dma.registerStatusHandlers (ContextJSONMux r.ctx).2)]) ∧
    (∀ st f e, dma.statusStore = some st → dma.statusIDFn = some f →
      (f r parsed).2 = some e →
      ("generate status id: " ++ e) ∈ (handleStatus dma r m.Data).2.2 ∧
      .storeStatusCall r.id (statusWithID dma r parsed) ∈ (handleStatus dma r m.Data).2.1) ∧
    (∀ st e, dma.statusStore = some st →
      st r.id (statusWithID dma r parsed) = some e →
      (handleStatus dma r m.Data).1 = some (.storingStatus e)) := by
  refine ⟨by simp [DeclarativeManagement, hep], fun hst => ?_, fun st f e hst hf he => ?_,
    fun st e hst he => ?_⟩
  · simp [handleStatus, hparse, hst]
  · simp only [handleStatus, hparse, hst]
    rcases h2 : st r.id (statusWithID dma r parsed) with _ | e2 <;>
      simp [h2, idLogs, hf, he]
  · simp [handleStatus, hparse, hst, he]

/-- C7 witness: at a concrete adapter whose ID generator and store fail,
the generation failure is logged, the report is still stored, and the
storage failure comes back wrapped. -/
theorem claim_C7_witness :
    (handleStatus exAdapterFail exDMReq [7]).1 = some (.storingStatus "disk full") ∧
    ("generate status id: " ++ "id generator failed")
      ∈ (handleStatus exAdapterFail exDMReq [7]).2.2 :=
  have h := claim_C7 exAdapterFail exDMReq exMsgStatus [".test"]
      { Raw := [7], Values := ["testUUID"] } rfl rfl
  ⟨h.2.2.2 (fun _ _ => some "disk full") "disk full" rfl rfl,
   (h.2.2.1 (fun _ _ => some "disk full")
      (fun _ _ => ("testStatusID", some "id generator failed"))
      "id generator failed" rfl rfl rfl).1⟩

/-- C10: the context accessors are idempotent: a context already carrying
a status report (respectively a path mux) is returned unchanged together
with that same report (mux); only an empty context gets a fresh one
created and stored; consequently the status handler parses with the
caller-installed mux (with defaults registered) and report. -/
theorem claim_C10 :
    (∀ (ctx : DMCtx) (raw : Bytes) (sr : StatusReport),
      ctx.statusReport = some sr → ContextStatusReport ctx raw = (ctx, sr)) ∧
    (∀ (ctx : DMCtx) (mux : PathMux),
      ctx.mux = some mux → ContextJSONMux ctx = (ctx, mux)) ∧
    (∀ (ctx : DMCtx) (raw : Bytes), ctx.statusReport = none →
      ContextStatusReport ctx raw
        = ({ ctx with statusReport := some { Raw := raw } }, { Raw := raw })) ∧
    (∀ (ctx : DMCtx), ctx.mux = none →
      ContextJSONMux ctx = ({ ctx with mux := some ⟨[]⟩ }, ⟨[]⟩)) ∧
    (∀ (dma : DMAdapter) (r : DMRequest) (d : Bytes) (mux : PathMux) (sr : StatusReport),
      r.ctx.mux = some mux → r.ctx.statusReport = some sr →
      (handleStatus dma r d).2.1.head?
        = some (.parseStatusCall sr.Raw (dma.registerStatusHandlers mux))) := by
  refine ⟨fun ctx raw sr h => ?_, fun ctx mux h => ?_, fun ctx raw h => ?_, fun ctx h => ?_,
    fun dma r d mux sr hm hsr => ?_⟩
  · simp [ContextStatusReport, h]
  · simp [ContextJSONMux, h]
  · simp [ContextStatusReport, h]
  · simp [ContextJSONMux, h]
  · simp only [handleStatus, ContextJSONMux, ContextStatusReport, hm, hsr]
    rcases hp : dma.parseStatusUsingMux sr.Raw (dma.registerStatusHandlers mux) sr
        with e | ⟨unhandled, parsed⟩ <;> simp [hp]
    cases dma.statusStore with
    | none => simp
    | some st =>
      rcases h2 : st r.id (statusWithID dma r parsed) with _ | e2 <;> simp [h2]

/-- C10 witness: a context carrying a report and a mux is returned
unchanged with them, and the status handler's parse call uses them. -/
theorem claim_C10_witness :
    ContextStatusReport { mux := some exMux, statusReport := some exReport } [9]
      = ({ mux := some exMux, statusReport := some exReport }, exReport) ∧
    (handleStatus exAdapter exDMReqCtx [9]).2.1.head?
      = some (.parseStatusCall [7] (exAdapter.registerStatusHandlers exMux)) :=
  ⟨claim_C10.1 { mux := some exMux, statusReport := some exReport } [9] exReport rfl,
   claim_C10.2.2.2.2 exAdapter exDMReqCtx [9] exMux exReport rfl rfl⟩

end ddmadapter

namespace nanohub

/-- C4: construction of the hub fails with a configuration error whenever
an explicit verifier is supplied together with non-empty root or
intermediate PEM material, whenever both a signature-header name and
Mdm-Signature extraction are active, or whenever the combined handler is
disabled without enabling the separate check-in handler: validate rejects
the configuration, so New fails before any component is built and request
handling never sees such a configuration. -/
theorem claim_C4 (opts : List ConfigOption) (c : Config)
    (hrun : runOptions newConfig opts = .ok c)
    (hcond :
      (c.verifier.isSome = true ∧ (c.rootsPEM ≠ [] ∨ c.intsPEM ≠ [])) ∨
      (c.authConfig.signatureHeader ≠ "" ∧ c.authConfig.mdmSignature = true) ∨
      (c.noCombined = true ∧ c.checkin = false)) :
    c.validate ≠ none ∧ (∃ e, New opts = .error e) := by
  have hv : c.validate ≠ none := by
    unfold Config.validate
    rcases hcond with ⟨h1, h2⟩ | ⟨h1, h2⟩ | ⟨h1, h2⟩ <;> repeat' split
    all_goals simp_all
  refine ⟨hv, ?_⟩
  rcases hval : c.validate with _ | e
  · exact absurd hval hv
  · exact ⟨e, by simp [New, hrun, hval]⟩

/-- C4 witness: each of the three invalid option combinations makes New
fail. -/
theorem claim_C4_witness :
    (∃ e, New [WithoutServerCombinedHandler] = .error e) ∧
    (∃ e, New [WithRootPEMs [104], WithVerifier ()] = .error e) ∧
    (∃ e, New [WithCertHeader "X-Cert", WithMdmSignature] = .error e) :=
  ⟨(claim_C4 [WithoutServerCombinedHandler] { newConfig with noCombined := true } rfl
      (Or.inr (Or.inr ⟨rfl, rfl⟩))).2,
   (claim_C4 [WithRootPEMs [104], WithVerifier ()]
      { newConfig with rootsPEM := [104], verifier := some () } rfl
      (Or.inl ⟨rfl, Or.inl (by decide)⟩)).2,
   (claim_C4 [WithCertHeader "X-Cert", WithMdmSignature]
      { newConfig with authConfig :=
          { mdmSignature := true, signatureHeader := "X-Cert" } } rfl
      (Or.inr (Or.inl ⟨by decide, rfl⟩))).2⟩

end nanohub

namespace enqueue

/-- C8: the notify operation builds the DM command with the freshly
generated identifier and delegates to the plain enqueue (with no
collaborator call when building fails); the plain enqueue succeeds
exactly when the collaborator call returns no error and the result's
aggregate error accessor reports none, always making that one call; Push
with pushes enabled is an enqueue of a nil command to the same ids, and
with pushes suppressed succeeds without calling the collaborator. -/
theorem claim_C8 (e : Enqueue) (ids : List String) (tokensJSON : Option Bytes)
    (raw : Option Bytes) :
    (∀ b, e.makeCommand e.iderID tokensJSON = .ok b →
      e.EnqueueDMCommand ids tokensJSON = e.enqueue ids (some b)) ∧
    (∀ msg, e.makeCommand e.iderID tokensJSON = .error msg →
      e.EnqueueDMCommand ids tokensJSON = (some (.makingCommand msg), [])) ∧
    ((e.enqueue ids raw).1 = none ↔
      ((e.rawCommandEnqueueWithPush raw ids e.noPush).2.2 = none ∧
       (e.rawCommandEnqueueWithPush raw ids e.noPush).1.aggregateErr = none)) ∧
    ((e.enqueue ids raw).2 = [.rawCommandEnqueueWithPush raw ids e.noPush]) ∧
    (e.noPush = false → e.Push ids = e.enqueue ids none) ∧
    (e.noPush = true → e.Push ids = (none, [])) := by
  refine ⟨fun b hb => ?_, fun msg hmsg => ?_, ?_, ?_, fun h => ?_, fun h => ?_⟩
  · simp [Enqueue.EnqueueDMCommand, hb]
  · simp [Enqueue.EnqueueDMCommand, hmsg]
  · unfold Enqueue.enqueue
    rcases h1 : (e.rawCommandEnqueueWithPush raw ids e.noPush).2.2 with _ | m1
    · rcases h2 : (e.rawCommandEnqueueWithPush raw ids e.noPush).1.aggregateErr with _ | m2 <;>
        simp [h1, h2]
    · simp [h1]
  · unfold Enqueue.enqueue
    rcases h1 : (e.rawCommandEnqueueWithPush raw ids e.noPush).2.2 with _ | m1
    · rcases h2 : (e.rawCommandEnqueueWithPush raw ids e.noPush).1.aggregateErr with _ | m2 <;>
        simp [h1, h2]
    · simp [h1]
  · simp [Enqueue.Push, h]
  · simp [Enqueue.Push, h]

/-- C8 witness: at a concrete enqueuer the notify delegates to the plain
enqueue with the built command, the plain enqueue succeeds, suppressed
pushes are a no-op, and enabled pushes enqueue a nil command. -/
theorem claim_C8_witness :
    exEnq.EnqueueDMCommand ["E1"] none = exEnq.enqueue ["E1"] (some [9]) ∧
    (exEnq.enqueue ["E1"] (some [9])).1 = none ∧
    exEnqNoPush.Push ["E1"] = (none, []) ∧
    exEnq.Push ["E1"] = exEnq.enqueue ["E1"] none :=
  have h := claim_C8 exEnq ["E1"] none (some [9])
  have h2 := claim_C8 exEnqNoPush ["E1"] none none
  ⟨h.1 [9] rfl, (h.2.2.1).2 ⟨rfl, rfl⟩, h2.2.2.2.2.2 rfl, h.2.2.2.2.1 rfl⟩

end enqueue
